import Mathlib

/-!
Verification development for the sistemaagro invoice-extraction service.

The repository consists of three near-identical Express service variants
(a raw-text variant using PDF.js extraction, a direct-PDF variant, and a
modularized variant in `public/script.js` + server).  The reply-processing
block is byte-for-byte identical in all three variants
(`processWithGemini`, lines 137-148 of the text variant, and
`processPDFWithGemini`, lines 164-175 of `public/script.js`):

  let text = response.text().replace(/```json|```/g, '').trim();
  const jsonMatch = text.match(/\x7b[\s\S]*\x7d/);
  if (jsonMatch) text = jsonMatch[0];
  const extractedData = JSON.parse(text);
  return extractedData;

This file embeds that pipeline, the category taxonomy and its helpers,
the PDF page-text loop, and the upload/length validation of the
`/extract-data` handler, and settles the frozen claims against them.
-/

set_option maxRecDepth 8000

/-- Characters treated as whitespace by the JSON grammar and (in the ASCII
range relevant here) by JavaScript `String.prototype.trim`. -/
def isWs (c : Char) : Bool := c = ' ' || c = '\t' || c = '\n' || c = '\r'

/-- Drop leading whitespace, as JSON token scanning does between tokens. -/
def skipWs : List Char → List Char
  | c :: rest => if isWs c then skipWs rest else c :: rest
  | [] => []

/-- JavaScript `String.prototype.trim` on the character list: drop leading
and trailing whitespace. -/
def jsTrim (cs : List Char) : List Char :=
  ((cs.dropWhile isWs).reverse.dropWhile isWs).reverse

/-- The backtick character (code point 96). -/
def tick : Char := Char.ofNat 96

/-- Test for the backtick character. -/
def isTick (c : Char) : Bool := c.toNat = 96

/-- Drop a leading `json` tag, used after a three-backtick run has been
recognised: the regex alternation prefers the `json`-suffixed fence. -/
def dropJsonTag : List Char → List Char
  | 'j' :: 's' :: 'o' :: 'n' :: rest => rest
  | cs => cs

/-- Embedding of `text.replace(/```json|```/g, '')`: scan left to right; at
each position delete a leading three-backtick run together with an
immediately following `json` tag when present (the regex alternation
prefers the longer alternative), otherwise keep the character and move
on.  This is exactly the semantics of a global regex replace with the
empty string: matches are non-overlapping, leftmost, and the scan
resumes after each match.  The fuel argument makes the recursion
structural; every step consumes at least one character, so fuel equal to
the input length always suffices. -/
def stripFencesGo : Nat → List Char → List Char
  | 0, cs => cs
  | _ + 1, [] => []
  | fuel + 1, c :: rest =>
    if isTick c then
      match rest with
      | c2 :: c3 :: rest3 =>
        if isTick c2 && isTick c3 then stripFencesGo fuel (dropJsonTag rest3)
        else c :: stripFencesGo fuel rest
      | _ => c :: stripFencesGo fuel rest
    else c :: stripFencesGo fuel rest
termination_by structural fuel _ => fuel

/-- The fence-stripping pass over a whole reply. -/
def stripFences (cs : List Char) : List Char :=
  stripFencesGo cs.length cs

/-- The opening-brace character, written via its code point 123. -/
def lbrace : Char := Char.ofNat 123

/-- The closing-brace character, written via its code point 125. -/
def rbrace : Char := Char.ofNat 125

/-- Index of the first element satisfying `p`, as JavaScript regex scanning
finds the leftmost match position. -/
def firstIdx (p : Char → Bool) : List Char → Option Nat
  | [] => none
  | c :: rest => if p c then some 0 else (firstIdx p rest).map (· + 1)

/-- Embedding of `text.match(/\x7b[\s\S]*\x7d/)` followed by
`text = jsonMatch[0]` when a match exists: the greedy regex matches from
the first opening brace through the last closing brace of the whole
string, provided the last closing brace lies after the first opening
brace; when no match exists the text is left unchanged. -/
def extractCandidate (cs : List Char) : List Char :=
  match firstIdx (fun c => c = lbrace) cs, firstIdx (fun c => c = rbrace) cs.reverse with
  | some i, some k =>
    let j := cs.length - 1 - k
    if i < j then (cs.drop i).take (j - i + 1) else cs
  | _, _ => cs

/-- The candidate text handed to `JSON.parse`: fence stripping, then
`trim()`, then the greedy brace extraction, in the source's order. -/
def pipelineCandidate (cs : List Char) : List Char :=
  extractCandidate (jsTrim (stripFences cs))

/-- Whether a character list contains three consecutive backticks
(hence whether any code-fence marker, "three backticks" or "three
backticks followed by json", occurs in it). -/
def hasTriple : List Char → Bool
  | c1 :: c2 :: c3 :: rest =>
    (isTick c1 && isTick c2 && isTick c3) || hasTriple (c2 :: c3 :: rest)
  | _ => false

/-- Number of leading backticks of a character list. -/
def leadingTicks : List Char → Nat
  | c :: rest => if isTick c then leadingTicks rest + 1 else 0
  | [] => 0

/-- Exact value of a JSON numeral, as a fraction in lowest terms (every
JSON numeral denotes a rational; no claim here exercises double
rounding). -/
structure JsonNumber where
  num : Int
  den : Nat
deriving DecidableEq

/-- Build a `JsonNumber` in lowest terms from a sign, a numerator
magnitude and a positive denominator. -/
def JsonNumber.make (neg : Bool) (n : Nat) (d : Nat) : JsonNumber :=
  let g := Nat.gcd n d
  let n2 := n / g
  let d2 := d / g
  ⟨if neg then -(n2 : Int) else (n2 : Int), d2⟩

/-- JSON values as produced by JavaScript `JSON.parse`. -/
inductive Json where
  | null : Json
  | bool (b : Bool) : Json
  | num (v : JsonNumber) : Json
  | str (s : String) : Json
  | arr (elems : List Json) : Json
  | obj (fields : List (String × Json)) : Json

/-- The JSON value of an integer numeral, used to keep statements
readable. -/
def jint (n : Int) : Json :=
  Json.num ⟨n, 1⟩

/-- Property access on a parsed object, with JavaScript semantics for
duplicate keys (the last occurrence wins); `none` on missing keys and on
non-objects. -/
def Json.lookup (j : Json) (k : String) : Option Json :=
  match j with
  | .obj fields => fields.foldl (fun acc p => if p.1 = k then some p.2 else acc) none
  | _ => none

/-- Value of a hexadecimal digit, for `\u` escapes. -/
def hexDigitVal (c : Char) : Option Nat :=
  if c.isDigit then some (c.toNat - 48)
  else if 'a' ≤ c ∧ c ≤ 'f' then some (c.toNat - 87)
  else if 'A' ≤ c ∧ c ≤ 'F' then some (c.toNat - 55)
  else none

/-- Body of a JSON string literal, entered after the opening quote.
Returns the decoded contents and the input remaining after the closing
quote.  Escape handling and the rejection of raw control characters
follow the strict JSON grammar used by `JSON.parse`. -/
def parseStringBody : List Char → Option (List Char × List Char)
  | [] => none
  | c :: rest =>
    if c = '"' then some ([], rest)
    else if c = '\\' then
      match rest with
      | [] => none
      | e :: rest2 =>
        if e = '"' then (parseStringBody rest2).map (fun p => ('"' :: p.1, p.2))
        else if e = '\\' then (parseStringBody rest2).map (fun p => ('\\' :: p.1, p.2))
        else if e = '/' then (parseStringBody rest2).map (fun p => ('/' :: p.1, p.2))
        else if e = 'b' then (parseStringBody rest2).map (fun p => (Char.ofNat 8 :: p.1, p.2))
        else if e = 'f' then (parseStringBody rest2).map (fun p => (Char.ofNat 12 :: p.1, p.2))
        else if e = 'n' then (parseStringBody rest2).map (fun p => ('\n' :: p.1, p.2))
        else if e = 'r' then (parseStringBody rest2).map (fun p => ('\r' :: p.1, p.2))
        else if e = 't' then (parseStringBody rest2).map (fun p => ('\t' :: p.1, p.2))
        else if e = 'u' then
          match rest2 with
          | a :: b :: c2 :: d :: rest3 =>
            match hexDigitVal a, hexDigitVal b, hexDigitVal c2, hexDigitVal d with
            | some ha, some hb, some hc, some hd =>
              (parseStringBody rest3).map
                (fun p => (Char.ofNat (((ha * 16 + hb) * 16 + hc) * 16 + hd) :: p.1, p.2))
            | _, _, _, _ => none
          | _ => none
        else none
    else if c.toNat < 32 then none
    else (parseStringBody rest).map (fun p => (c :: p.1, p.2))

/-- Numeric value of a digit string. -/
def natOfDigits (ds : List Char) : Nat :=
  ds.foldl (fun n c => n * 10 + (c.toNat - 48)) 0

/-- Integer part of a JSON numeral: `0`, or a nonzero digit followed by
digits; a leading `0` may not be followed by another digit. -/
def parseIntPart : List Char → Option (Nat × List Char)
  | [] => none
  | c :: r =>
    if c = '0' then
      match r with
      | c2 :: _ => if c2.isDigit then none else some (0, r)
      | [] => some (0, [])
    else if c.isDigit then
      some (natOfDigits ((c :: r).takeWhile Char.isDigit), (c :: r).dropWhile Char.isDigit)
    else none

/-- Optional fraction part of a JSON numeral: the fraction-digit value
and the number of fraction digits. -/
def parseFracPart : List Char → Option ((Nat × Nat) × List Char)
  | '.' :: r =>
    if (r.takeWhile Char.isDigit).isEmpty then none
    else
      some ((natOfDigits (r.takeWhile Char.isDigit), (r.takeWhile Char.isDigit).length),
        r.dropWhile Char.isDigit)
  | cs => some ((0, 0), cs)

/-- Optional exponent part of a JSON numeral, returned as the signed
decimal exponent it contributes. -/
def parseExpPart : List Char → Option (Int × List Char)
  | [] => some (0, [])
  | c :: r =>
    if c = 'e' ∨ c = 'E' then
      let signAndRest : Int × List Char :=
        match r with
        | '+' :: r2 => (1, r2)
        | '-' :: r2 => (-1, r2)
        | _ => (1, r)
      let ds := signAndRest.2.takeWhile Char.isDigit
      if ds.isEmpty then none
      else
        some (signAndRest.1 * (natOfDigits ds : Int), signAndRest.2.dropWhile Char.isDigit)
    else some (0, c :: r)

/-- A JSON numeral: optional minus sign, integer part, optional fraction,
optional exponent; its exact value in lowest terms. -/
def parseNumber (cs : List Char) : Option (JsonNumber × List Char) :=
  let signAndRest : Bool × List Char :=
    match cs with
    | '-' :: r => (true, r)
    | _ => (false, cs)
  match parseIntPart signAndRest.2 with
  | none => none
  | some (i, r1) =>
    match parseFracPart r1 with
    | none => none
    | some (fk, r2) =>
      match parseExpPart r2 with
      | none => none
      | some (e, r3) =>
        let mantissa := i * 10 ^ fk.2 + fk.1
        if 0 ≤ e then
          some (JsonNumber.make signAndRest.1 (mantissa * 10 ^ e.toNat) (10 ^ fk.2), r3)
        else
          some (JsonNumber.make signAndRest.1 mantissa (10 ^ fk.2 * 10 ^ (-e).toNat), r3)

mutual

/-- A JSON value: skip whitespace, then dispatch on the first character.
The fuel argument bounds the recursion; one unit is spent per nested
value or object/array element, and each such step consumes at least one
input character, so `length + 1` fuel always suffices. -/
def parseValue : Nat → List Char → Option (Json × List Char)
  | 0, _ => none
  | fuel + 1, cs =>
    match skipWs cs with
    | [] => none
    | c :: rest =>
      if c = '"' then
        (parseStringBody rest).map (fun p => (Json.str (String.mk p.1), p.2))
      else if c = lbrace then
        match skipWs rest with
        | c2 :: r2 =>
          if c2 = rbrace then some (Json.obj [], r2)
          else (parseMembers fuel (c2 :: r2)).map (fun p => (Json.obj p.1, p.2))
        | [] => none
      else if c = '[' then
        match skipWs rest with
        | c2 :: r2 =>
          if c2 = ']' then some (Json.arr [], r2)
          else (parseElems fuel (c2 :: r2)).map (fun p => (Json.arr p.1, p.2))
        | [] => none
      else
        match c :: rest with
        | 't' :: 'r' :: 'u' :: 'e' :: r => some (Json.bool true, r)
        | 'f' :: 'a' :: 'l' :: 's' :: 'e' :: r => some (Json.bool false, r)
        | 'n' :: 'u' :: 'l' :: 'l' :: r => some (Json.null, r)
        | cs2 => (parseNumber cs2).map (fun p => (Json.num p.1, p.2))
termination_by structural fuel _ => fuel

/-- A nonempty member list of a JSON object: quoted key, colon, value,
then either a comma and further members or the closing brace. -/
def parseMembers : Nat → List Char → Option (List (String × Json) × List Char)
  | 0, _ => none
  | fuel + 1, cs =>
    match skipWs cs with
    | [] => none
    | c :: rest =>
      if c = '"' then
        match parseStringBody rest with
        | none => none
        | some (key, r1) =>
          match skipWs r1 with
          | ':' :: r2 =>
            match parseValue fuel r2 with
            | none => none
            | some (v, r3) =>
              match skipWs r3 with
              | c4 :: r4 =>
                if c4 = ',' then
                  (parseMembers fuel r4).map (fun p => ((String.mk key, v) :: p.1, p.2))
                else if c4 = rbrace then some ([(String.mk key, v)], r4)
                else none
              | [] => none
          | _ => none
      else none
termination_by structural fuel _ => fuel

/-- A nonempty element list of a JSON array. -/
def parseElems : Nat → List Char → Option (List Json × List Char)
  | 0, _ => none
  | fuel + 1, cs =>
    match parseValue fuel cs with
    | none => none
    | some (v, r1) =>
      match skipWs r1 with
      | c2 :: r2 =>
        if c2 = ',' then (parseElems fuel r2).map (fun p => (v :: p.1, p.2))
        else if c2 = ']' then some ([v], r2)
        else none
      | [] => none
termination_by structural fuel _ => fuel

end

/-- Embedding of `JSON.parse`: parse one value and require that only
whitespace remains (strict JSON, no trailing garbage). -/
def parseJsonTop (cs : List Char) : Option Json :=
  match parseValue (cs.length + 1) cs with
  | some (v, rest) => if skipWs rest = [] then some v else none
  | none => none

/-- The reply-processing block shared by all three service variants
(`processWithGemini` lines 137-148 and `processPDFWithGemini` lines
164-175): strip fence markers, trim, isolate the greedy brace span, and
run `JSON.parse`.  The parsed value is returned to the caller verbatim;
`none` models the thrown `Falha no processamento IA` error. -/
def parseAndValidate (reply : String) : Option Json :=
  parseJsonTop (pipelineCandidate reply.toList)

/-- The fixed expense-category taxonomy, identical in all three service
variants. -/
def CATEGORIAS_DESPESAS : List String :=
  ["INSUMOS AGRÍCOLAS",
   "MANUTENÇÃO E OPERAÇÃO",
   "RECURSOS HUMANOS",
   "SERVIÇOS OPERACIONAIS",
   "INFRAESTRUTURA E UTILIDADES",
   "ADMINISTRATIVAS",
   "SEGUROS E PROTEÇÃO",
   "IMPOSTOS E TAXAS",
   "INVESTIMENTOS"]

/-- Result of `examples[category] || []` in `getCategoryExamples`: either
an example list (an own property of the table, or the `|| []` default),
or — because JavaScript bracket access on an object literal traverses
the prototype chain — a member inherited from `Object.prototype`.  Such
an inherited member (a function, or the prototype object itself for
`__proto__`) is truthy, so `|| []` does not replace it and the function
returns it as-is; the constructor records which key was hit. -/
inductive ExamplesResult where
  | list (examples : List String) : ExamplesResult
  | inherited (key : String) : ExamplesResult
deriving DecidableEq

/-- The property keys every object literal inherits from
`Object.prototype` in Node: the standard members plus the Annex B
accessors.  Bracket access on the example table finds these when the
argument is not an own key. -/
def objectPrototypeKeys : List String :=
  ["constructor", "hasOwnProperty", "isPrototypeOf", "propertyIsEnumerable",
   "toLocaleString", "toString", "valueOf", "__proto__",
   "__defineGetter__", "__defineSetter__", "__lookupGetter__", "__lookupSetter__"]

/-- `getCategoryExamples`: `return examples[category] || []` on the
example-table object literal.  Bracket access first finds own
properties (the 9 category names), then the members inherited from
`Object.prototype` (truthy, so `|| []` does not apply and the inherited
member is returned), and only otherwise yields `undefined`, which
`|| []` turns into the empty list. -/
def getCategoryExamples (category : String) : ExamplesResult :=
  if category = "INSUMOS AGRÍCOLAS" then
    .list ["Sementes", "Fertilizantes", "Defensivos Agrícolas", "Corretivos"]
  else if category = "MANUTENÇÃO E OPERAÇÃO" then
    .list ["Combustíveis", "Lubrificantes", "Peças", "Manutenção de Máquinas"]
  else if category = "RECURSOS HUMANOS" then
    .list ["Mão de Obra Temporária", "Salários e Encargos"]
  else if category = "SERVIÇOS OPERACIONAIS" then
    .list ["Frete", "Transporte", "Colheita Terceirizada"]
  else if category = "INFRAESTRUTURA E UTILIDADES" then
    .list ["Energia Elétrica", "Arrendamento", "Construções"]
  else if category = "ADMINISTRATIVAS" then
    .list ["Honorários Contábeis", "Despesas Bancárias"]
  else if category = "SEGUROS E PROTEÇÃO" then
    .list ["Seguro Agrícola", "Seguro de Ativos"]
  else if category = "IMPOSTOS E TAXAS" then
    .list ["ITR", "IPTU", "IPVA", "INCRA-CCIR"]
  else if category = "INVESTIMENTOS" then
    .list ["Máquinas", "Implementos", "Veículos", "Imóveis"]
  else if category ∈ objectPrototypeKeys then
    .inherited category
  else .list []

/-- The `GET /categories` payload: each category with its 1-based index
as `id`, its name, and its example list
(`CATEGORIAS_DESPESAS.map((cat, index) => (id: index + 1, ...))`).  The
lookups here are always own keys of the table, so each entry carries a
proper example list. -/
def categoriesListing : List (Nat × String × ExamplesResult) :=
  CATEGORIAS_DESPESAS.enum.map (fun p => (p.1 + 1, p.2, getCategoryExamples p.2))

/-- Text of one PDF page: the page items joined with single spaces
(`textContent.items.map(item => item.str).join(' ')`). -/
def pageText (items : List String) : String :=
  String.intercalate " " items

/-- The page loop of `extractTextFromPDF`: pages 1 through
`min(pdf.numPages, 3)`, each page text followed by a blank line,
accumulated in order. -/
def pagesText (pages : List (List String)) : String :=
  String.join ((pages.take 3).map (fun pg => pageText pg ++ "\n\n"))

/-- `extractTextFromPDF` on the abstract page structure of a PDF: the
accumulated first-three-pages text, trimmed (`fullText.trim()`). -/
def extractTextFromPDF (pages : List (List String)) : String :=
  String.mk (jsTrim (pagesText pages).toList)

/-- Failure modes of the `/extract-data` handler before the backend is
invoked: a missing upload (400, `Nenhum arquivo PDF foi enviado.`) and
an extracted text that is empty or shorter than 50 characters (`Texto
extraído do PDF é muito curto ou vazio.`). -/
inductive ExtractionFailure where
  | noFile : ExtractionFailure
  | textTooShort : ExtractionFailure
deriving DecidableEq

/-- The request the extraction core submits to the inference backend:
the fixed instruction template with the document text interpolated.  The
template itself is a constant string, so the request is determined by
the document text. -/
structure ExtractionRequest where
  documentText : String
deriving DecidableEq

/-- The `!req.file` guard of the `/extract-data` handler. -/
def receiveUpload (file : Option String) : Except ExtractionFailure String :=
  match file with
  | none => Except.error ExtractionFailure.noFile
  | some buf => Except.ok buf

/-- The `!extractedText || extractedText.length < 50` guard of the
`/extract-data` handler, followed by construction of the backend request
from the extracted text.  The emptiness test is the `length = 0` case. -/
def buildRequest (extractedText : String) : Except ExtractionFailure ExtractionRequest :=
  if extractedText.length = 0 ∨ extractedText.length < 50 then
    Except.error ExtractionFailure.textTooShort
  else Except.ok ⟨extractedText⟩


/-! ## Helper lemmas -/

/-- The string lexer returns safe characters verbatim: a string body made
of characters that are not quotes, not backslashes and not control
characters is decoded as exactly those characters. -/
theorem parseStringBody_verbatim (s tail : List Char)
    (h : ∀ c ∈ s, c ≠ '"' ∧ c ≠ '\\' ∧ 32 ≤ c.toNat) :
    parseStringBody (s ++ '"' :: tail) = some (s, tail) := by
  induction s with
  | nil =>
    rw [List.nil_append, parseStringBody.eq_def]
    simp
  | cons c s ih =>
    have hc := h c (by simp)
    have hrest : ∀ x ∈ s, x ≠ '"' ∧ x ≠ '\\' ∧ 32 ≤ x.toNat := fun x hx => h x (by simp [hx])
    have h32 : ¬ c.toNat < 32 := by omega
    rw [List.cons_append, parseStringBody.eq_def]
    simp [hc.1, hc.2.1, h32, ih hrest]

/-- Fence stripping of the empty reply. -/
theorem stripGo_nil (n : Nat) : stripFencesGo n [] = [] := by
  cases n <;> simp [stripFencesGo]

/-- A non-backtick head character is emitted unchanged. -/
theorem strip_head_emit (n : Nat) (c : Char) (rest : List Char) (hc : isTick c = false) :
    stripFencesGo (n + 1) (c :: rest) = c :: stripFencesGo n rest := by
  simp [stripFencesGo, hc]

/-- Fence stripping leaves a singleton unchanged. -/
theorem strip_single (n : Nat) (c : Char) : stripFencesGo n [c] = [c] := by
  cases n with
  | zero => rfl
  | succ m =>
    by_cases hc : isTick c <;> simp [stripFencesGo, hc, stripGo_nil]

/-- The output of fence stripping starts with a non-backtick whenever the
input does. -/
theorem strip_leading_zero (n : Nat) (c : Char) (rest : List Char) (hc : isTick c = false) :
    leadingTicks (stripFencesGo n (c :: rest)) = 0 := by
  cases n with
  | zero => simp [stripFencesGo, leadingTicks, hc]
  | succ m =>
    rw [strip_head_emit m c rest hc]
    simp [leadingTicks, hc]

/-- Fence stripping does not increase a leading backtick run beyond one
when the input run has at most one. -/
theorem strip_leading_le_one (n : Nat) (cs : List Char) (h : leadingTicks cs ≤ 1) :
    leadingTicks (stripFencesGo n cs) ≤ 1 := by
  cases n with
  | zero => simpa [stripFencesGo] using h
  | succ m =>
    match cs with
    | [] => simp [stripGo_nil, leadingTicks]
    | c :: rest =>
      by_cases hc : isTick c
      · have h0 : leadingTicks rest = 0 := by
          simp [leadingTicks, hc] at h
          omega
        match rest with
        | [] =>
          rw [strip_single]
          simp [leadingTicks, hc]
        | c2 :: rest2 =>
          have hc2 : isTick c2 = false := by
            by_cases h2 : isTick c2
            · simp [leadingTicks, h2] at h0
            · exact Bool.eq_false_iff.mpr h2
          match rest2 with
          | [] =>
            simp [stripFencesGo, hc, strip_single, leadingTicks, hc2]
          | c3 :: r3 =>
            have hcond : (isTick c2 && isTick c3) = false := by simp [hc2]
            rw [show stripFencesGo (m + 1) (c :: c2 :: c3 :: r3) =
                c :: stripFencesGo m (c2 :: c3 :: r3) from by simp [stripFencesGo, hc, hcond]]
            simp [leadingTicks, hc, strip_leading_zero m c2 (c3 :: r3) hc2]
      · have hcf : isTick c = false := Bool.eq_false_iff.mpr hc
        rw [strip_head_emit m c rest hcf]
        simp [leadingTicks, hcf]

/-- Prepending a character to a triple-free list whose leading backtick
run is short keeps it triple-free. -/
theorem hasTriple_cons_of (c : Char) (out : List Char) (hout : hasTriple out = false)
    (hhead : isTick c = false ∨ leadingTicks out ≤ 1) : hasTriple (c :: out) = false := by
  match out with
  | [] => rfl
  | [d] => rfl
  | d1 :: d2 :: t =>
    rcases hhead with h | h
    · simpa [hasTriple, h] using hout
    · by_cases hd1 : isTick d1
      · by_cases hd2 : isTick d2
        · simp [leadingTicks, hd1, hd2] at h
        · have : isTick d2 = false := Bool.eq_false_iff.mpr hd2
          simpa [hasTriple, this] using hout
      · have : isTick d1 = false := Bool.eq_false_iff.mpr hd1
        simpa [hasTriple, this] using hout

/-- Dropping a `json` tag never lengthens a list. -/
theorem dropJsonTag_length (cs : List Char) : (dropJsonTag cs).length ≤ cs.length := by
  unfold dropJsonTag
  split <;> simp_arith

/-- Fence stripping with sufficient fuel never leaves three consecutive
backticks in its output. -/
theorem stripGo_no_fence (n : Nat) : ∀ cs : List Char, cs.length ≤ n →
    hasTriple (stripFencesGo n cs) = false := by
  induction n with
  | zero =>
    intro cs h
    have hnil : cs = [] := List.eq_nil_of_length_eq_zero (by omega)
    subst hnil
    rfl
  | succ m ih =>
    intro cs h
    match cs with
    | [] => simp [stripGo_nil, hasTriple]
    | c :: rest =>
      have hlen : rest.length ≤ m := by
        simp [List.length_cons] at h
        omega
      by_cases hc : isTick c
      · match rest with
        | [] =>
          rw [strip_single]
          rfl
        | [c2] =>
          simp only [stripFencesGo, hc, if_true]
          simp [strip_single, hasTriple]
        | c2 :: c3 :: r3 =>
          by_cases h23 : (isTick c2 && isTick c3) = true
          · rw [show stripFencesGo (m + 1) (c :: c2 :: c3 :: r3) =
                stripFencesGo m (dropJsonTag r3) from by simp [stripFencesGo, hc, h23]]
            refine ih _ ?_
            have := dropJsonTag_length r3
            simp [List.length_cons] at h
            omega
          · have h23f : (isTick c2 && isTick c3) = false := Bool.eq_false_iff.mpr h23
            rw [show stripFencesGo (m + 1) (c :: c2 :: c3 :: r3) =
                c :: stripFencesGo m (c2 :: c3 :: r3) from by simp [stripFencesGo, hc, h23f]]
            refine hasTriple_cons_of c _ (ih _ hlen) (Or.inr ?_)
            by_cases hc2 : isTick c2
            · have hc3 : isTick c3 = false := by
                by_cases h3 : isTick c3
                · rw [hc2, h3] at h23f
                  simp at h23f
                · exact Bool.eq_false_iff.mpr h3
              refine strip_leading_le_one m _ ?_
              simp [leadingTicks, hc2, hc3]
            · have hc2f : isTick c2 = false := Bool.eq_false_iff.mpr hc2
              simp [strip_leading_zero m c2 (c3 :: r3) hc2f]
      · have hcf : isTick c = false := Bool.eq_false_iff.mpr hc
        rw [strip_head_emit m c rest hcf]
        exact hasTriple_cons_of c _ (ih rest hlen) (Or.inl hcf)

/-- No output of the fence-stripping pass contains three consecutive
backticks, hence neither fence marker survives it. -/
theorem stripFences_no_fence (cs : List Char) : hasTriple (stripFences cs) = false :=
  stripGo_no_fence cs.length cs (Nat.le_refl _)

/-- `firstIdx` over an append whose first part contains no hit. -/
theorem firstIdx_append (p : Char → Bool) (l1 l2 : List Char) (h : ∀ c ∈ l1, p c = false) :
    firstIdx p (l1 ++ l2) = (firstIdx p l2).map (· + l1.length) := by
  induction l1 with
  | nil =>
    cases hfi : firstIdx p l2 <;> simp [hfi]
  | cons c l1 ih =>
    have hc := h c (by simp)
    have h2 : ∀ x ∈ l1, p x = false := fun x hx => h x (by simp [hx])
    rw [List.cons_append]
    simp only [firstIdx, hc, if_false, ih h2]
    cases hfi : firstIdx p l2 <;> (simp [hfi]; try omega)

/-- The greedy brace span: when the text is some prefix without opening
braces, then an opening brace, arbitrary middle text, a closing brace
and a suffix without closing braces, the isolated candidate runs from
that first opening brace to that last closing brace. -/
theorem extractCandidate_eq_span (pre mid post : List Char)
    (hpre : ∀ c ∈ pre, ¬ c = lbrace) (hpost : ∀ c ∈ post, ¬ c = rbrace) :
    extractCandidate (pre ++ lbrace :: (mid ++ rbrace :: post)) = lbrace :: (mid ++ [rbrace]) := by
  have h1 : firstIdx (fun c => c = lbrace) (pre ++ lbrace :: (mid ++ rbrace :: post))
      = some pre.length := by
    rw [firstIdx_append _ pre _ (fun c hc => by simp [hpre c hc])]
    simp [firstIdx]
  have hrev : (pre ++ lbrace :: (mid ++ rbrace :: post)).reverse
      = post.reverse ++ rbrace :: (mid.reverse ++ lbrace :: pre.reverse) := by
    simp
  have h2 : firstIdx (fun c => c = rbrace) (pre ++ lbrace :: (mid ++ rbrace :: post)).reverse
      = some post.length := by
    rw [hrev, firstIdx_append _ post.reverse _
      (fun c hc => by simp [hpost c (List.mem_reverse.mp hc)])]
    simp [firstIdx]
  have hlen : (pre ++ lbrace :: (mid ++ rbrace :: post)).length
      = pre.length + mid.length + post.length + 2 := by
    simp [List.length_append, List.length_cons]
    omega
  unfold extractCandidate
  rw [h1, h2, hlen]
  have hcond : pre.length < pre.length + mid.length + post.length + 2 - 1 - post.length := by
    omega
  simp only [if_pos hcond]
  rw [List.drop_left]
  have htake : pre.length + mid.length + post.length + 2 - 1 - post.length - pre.length + 1
      = mid.length + 2 := by omega
  rw [htake]
  have hsplit : lbrace :: (mid ++ rbrace :: post) = (lbrace :: (mid ++ [rbrace])) ++ post := by
    simp
  rw [hsplit]
  exact List.take_left' (by simp [List.length_cons, List.length_append])

/-! ## Claims -/

/-- Claim C1 (corrected): the response parser applies no category
validation at all.  The string lexer returns every quote-free,
backslash-free, control-free character sequence verbatim, and a reply
whose `classificacao_despesa` is a string outside the 9-name taxonomy is
returned with exactly that invalid string, not with the field absent.
The prompt asks the backend to restrict itself to the taxonomy, but the
code never enforces it. -/
theorem C1_category_not_validated :
    (∀ (s tail : List Char), (∀ c ∈ s, c ≠ '"' ∧ c ≠ '\\' ∧ 32 ≤ c.toNat) →
      parseStringBody (s ++ '"' :: tail) = some (s, tail)) ∧
    parseAndValidate "\x7b\"classificacao_despesa\":\"DESPESAS MÁGICAS\"\x7d" =
      some (Json.obj [("classificacao_despesa", Json.str "DESPESAS MÁGICAS")]) ∧
    "DESPESAS MÁGICAS" ∉ CATEGORIAS_DESPESAS :=
  ⟨parseStringBody_verbatim, rfl, by decide⟩

/-- Claim C1 witness: the verbatim-lexing part of the theorem applied at
a concrete character list. -/
theorem C1_category_not_validated_witness :
    parseStringBody (['N', 'F'] ++ '"' :: []) = some (['N', 'F'], []) :=
  C1_category_not_validated.1 ['N', 'F'] [] (by decide)

/-- Claim C1 counterexample: a backend reply carrying a
`classificacao_despesa` outside the taxonomy is returned with the
invalid string kept, where the claim requires the field to be absent. -/
theorem C1_category_counterexample :
    parseAndValidate "\x7b\"classificacao_despesa\":\"CATEGORIA INVENTADA\"\x7d" =
      some (Json.obj [("classificacao_despesa", Json.str "CATEGORIA INVENTADA")]) ∧
    "CATEGORIA INVENTADA" ∉ CATEGORIAS_DESPESAS :=
  ⟨rfl, by decide⟩

/-- Claim C2 (corrected): for the spec scenario reply, fence markers are
stripped and the object isolated, but both fields are returned exactly
as the strings carried by the JSON: `numero_nota_fiscal` keeps its dots
and `valor_total` stays the string `3.449,00`; no digit-stripping and no
decimal normalization happen in code. -/
theorem C2_scenario_verbatim :
    parseAndValidate "```json\n\x7b\"numero_nota_fiscal\":\"000.207.590\",\"valor_total\":\"3.449,00\"\x7d\n```" =
      some (Json.obj [("numero_nota_fiscal", Json.str "000.207.590"),
        ("valor_total", Json.str "3.449,00")]) ∧
    (Json.obj [("numero_nota_fiscal", Json.str "000.207.590"),
        ("valor_total", Json.str "3.449,00")]).lookup "numero_nota_fiscal"
      = some (Json.str "000.207.590") ∧
    (Json.obj [("numero_nota_fiscal", Json.str "000.207.590"),
        ("valor_total", Json.str "3.449,00")]).lookup "valor_total"
      = some (Json.str "3.449,00") :=
  ⟨rfl, rfl, rfl⟩

/-- Claim C2 counterexample: on the scenario reply the record's
`numero_nota_fiscal` is the punctuated string, not the digits-only
string the claim requires, and `valor_total` is a string, not the
number 3449. -/
theorem C2_scenario_counterexample :
    parseAndValidate "```json\n\x7b\"numero_nota_fiscal\":\"000.207.590\",\"valor_total\":\"3.449,00\"\x7d\n```" =
      some (Json.obj [("numero_nota_fiscal", Json.str "000.207.590"),
        ("valor_total", Json.str "3.449,00")]) ∧
    "000.207.590" ≠ "000207590" :=
  ⟨rfl, by decide⟩

/-- Claim C3 (corrected): the operation fails exactly when the isolated
candidate is not valid strict JSON.  A present non-positive installment
count does not cause failure and is returned verbatim; a reply with no
brace-delimited object can still succeed when the stripped reply itself
is JSON (a bare array); a reply that does contain a balanced object can
still fail, because the greedy candidate spans to the last closing
brace. -/
theorem C3_parse_failure_characterization :
    parseAndValidate "\x7b\"quantidade_parcelas\": -3\x7d" =
      some (Json.obj [("quantidade_parcelas", jint (-3))]) ∧
    parseAndValidate "[1, 2]" = some (Json.arr [jint 1, jint 2]) ∧
    parseAndValidate "x \x7b\"a\":1\x7d y \x7b\"b\":2\x7d" = none ∧
    parseAndValidate "sem json aqui" = none :=
  ⟨rfl, rfl, rfl, rfl⟩

/-- Claim C3 counterexample: a reply whose installment count is present
and zero succeeds with the zero kept, where the claim requires the whole
operation to fail. -/
theorem C3_nonpositive_installment_counterexample :
    parseAndValidate "\x7b\"quantidade_parcelas\": 0\x7d" =
      some (Json.obj [("quantidade_parcelas", jint 0)]) :=
  rfl

/-- Claim C4 (corrected): when the reply omits `quantidade_parcelas` the
returned record simply omits it too; no code-level default of 1 is
applied (the default is only requested from the backend by the prompt
text). -/
theorem C4_no_installment_default :
    parseAndValidate "\x7b\x7d" = some (Json.obj []) ∧
    (Json.obj []).lookup "quantidade_parcelas" = none ∧
    parseAndValidate "\x7b\"data_emissao\":\"2024-01-05\"\x7d" =
      some (Json.obj [("data_emissao", Json.str "2024-01-05")]) ∧
    (Json.obj [("data_emissao", Json.str "2024-01-05")]).lookup "quantidade_parcelas" = none :=
  ⟨rfl, rfl, rfl, rfl⟩

/-- Claim C4 counterexample: a reply omitting `quantidade_parcelas`
yields a record without the field, where the claim requires
`quantidade_parcelas = 1`. -/
theorem C4_omitted_installment_counterexample :
    parseAndValidate "\x7b\"valor_total\": 5\x7d" = some (Json.obj [("valor_total", jint 5)]) ∧
    (Json.obj [("valor_total", jint 5)]).lookup "quantidade_parcelas" = none :=
  ⟨rfl, rfl⟩

/-- Claim C5 (corrected): the candidate the parser isolates is the span
from the first opening brace to the last closing brace of the whole
reply.  This coincides with the first balanced object exactly when no
closing brace occurs later — as in the spec scenario, where the suffix
carries no braces — but not in general. -/
theorem C5_greedy_span (pre mid post : List Char)
    (hpre : ∀ c ∈ pre, ¬ c = lbrace) (hpost : ∀ c ∈ post, ¬ c = rbrace) :
    extractCandidate (pre ++ lbrace :: (mid ++ rbrace :: post)) = lbrace :: (mid ++ [rbrace]) :=
  extractCandidate_eq_span pre mid post hpre hpost

/-- Claim C5 witness: on the spec scenario text, the candidate is
exactly the single object. -/
theorem C5_greedy_span_witness :
    extractCandidate ("text before ".toList ++ lbrace :: ("\"a\":1".toList ++ rbrace :: " text after".toList)) =
      lbrace :: ("\"a\":1".toList ++ [rbrace]) :=
  C5_greedy_span "text before ".toList "\"a\":1".toList " text after".toList
    (by decide) (by decide)

/-- Claim C5 counterexample: with a second object after the first, the
isolated candidate runs through the last closing brace instead of being
the first balanced object, and parsing then fails. -/
theorem C5_first_object_counterexample :
    pipelineCandidate ("x \x7b\"a\":1\x7d y \x7b\"b\":2\x7d".toList) =
      "\x7b\"a\":1\x7d y \x7b\"b\":2\x7d".toList ∧
    pipelineCandidate ("x \x7b\"a\":1\x7d y \x7b\"b\":2\x7d".toList) ≠ "\x7b\"a\":1\x7d".toList ∧
    parseAndValidate "x \x7b\"a\":1\x7d y \x7b\"b\":2\x7d" = none :=
  ⟨rfl, by decide, rfl⟩

/-- Claim C6 (corrected): the core applies no field normalization at
all: every value comes back exactly as the parsed JSON carries it.
Already-canonical values are (trivially) unchanged, and a punctuated
tax-ID stays punctuated — digit-stripping is requested from the backend
by the prompt, not performed in code. -/
theorem C6_no_normalization :
    parseAndValidate "\x7b\"fornecedor\":\x7b\"cnpj\":\"18944113000291\"\x7d\x7d" =
      some (Json.obj [("fornecedor", Json.obj [("cnpj", Json.str "18944113000291")])]) ∧
    parseAndValidate "\x7b\"data_emissao\":\"2024-05-10\",\"valor_total\":3449.5\x7d" =
      some (Json.obj [("data_emissao", Json.str "2024-05-10"),
        ("valor_total", Json.num ⟨6899, 2⟩)]) ∧
    parseAndValidate "\x7b\"fornecedor\":\x7b\"cnpj\":\"18.944.113/0002-91\"\x7d\x7d" =
      some (Json.obj [("fornecedor", Json.obj [("cnpj", Json.str "18.944.113/0002-91")])]) :=
  ⟨rfl, rfl, rfl⟩

/-- Claim C6 counterexample: the punctuated tax-ID of the spec example
is returned with its punctuation kept, where the claim requires the
digits-only string. -/
theorem C6_taxid_counterexample :
    parseAndValidate "\x7b\"fornecedor\":\x7b\"cnpj\":\"18.944.113/0002-91\"\x7d\x7d" =
      some (Json.obj [("fornecedor", Json.obj [("cnpj", Json.str "18.944.113/0002-91")])]) ∧
    "18.944.113/0002-91" ≠ "18944113000291" :=
  ⟨rfl, by decide⟩

/-- Claim C7 (corrected): the request-building stage fails exactly when
the extracted text is shorter than 50 characters (the empty payload is
one such case, rejected separately as a missing upload); it is not true
that every non-empty payload succeeds. -/
theorem C7_length_threshold :
    (∀ t : String, buildRequest t = Except.ok ⟨t⟩ ↔ 50 ≤ t.length) ∧
    receiveUpload none = Except.error ExtractionFailure.noFile := by
  refine ⟨?_, rfl⟩
  intro t
  by_cases h : t.length = 0 ∨ t.length < 50
  · simp only [buildRequest, if_pos h]
    constructor
    · intro hx
      exact absurd hx (by simp)
    · intro hx
      omega
  · simp only [buildRequest, if_neg h]
    constructor
    · intro _
      omega
    · intro _
      trivial

/-- Claim C7 counterexample: the non-empty payload `abc` is rejected,
where the claim requires every non-empty payload to succeed. -/
theorem C7_short_text_counterexample :
    buildRequest "abc" = Except.error ExtractionFailure.textTooShort ∧ "abc" ≠ "" :=
  ⟨rfl, by decide⟩

/-- Claim C8 (corrected): the category listing enumerates the 9 fixed
categories in order with 1-based ids, and no input ever makes the
lookup fail; but `examples[category] || []` is bracket access on an
object literal, which traverses the prototype chain, so a non-taxonomy
string returns the empty list only when it is not an inherited
`Object.prototype` key — for keys such as `toString` the truthy
inherited member is returned instead of the empty list. -/
theorem C8_taxonomy_listing_and_lookup :
    categoriesListing.map (fun e => e.1) = [1, 2, 3, 4, 5, 6, 7, 8, 9] ∧
    categoriesListing.map (fun e => e.2.1) = CATEGORIAS_DESPESAS ∧
    CATEGORIAS_DESPESAS.length = 9 ∧
    (∀ c : String, c ∉ CATEGORIAS_DESPESAS → c ∉ objectPrototypeKeys →
      getCategoryExamples c = ExamplesResult.list []) ∧
    (∀ c : String, c ∈ objectPrototypeKeys →
      getCategoryExamples c = ExamplesResult.inherited c) := by
  refine ⟨rfl, rfl, rfl, ?_, ?_⟩
  · intro c hc1 hc2
    unfold getCategoryExamples
    split_ifs with h1 h2 h3 h4 h5 h6 h7 h8 h9 <;>
      first
        | rfl
        | (subst_vars; exact absurd (by decide) hc1)
  · intro c hc
    fin_cases hc <;> rfl

/-- Claim C8 witness: the empty-list part of the theorem applied at a
concrete string that is neither a taxonomy name nor an inherited
prototype key. -/
theorem C8_taxonomy_listing_and_lookup_witness :
    "CATEGORIA FANTASMA" ∉ CATEGORIAS_DESPESAS ∧
    "CATEGORIA FANTASMA" ∉ objectPrototypeKeys ∧
    getCategoryExamples "CATEGORIA FANTASMA" = ExamplesResult.list [] :=
  ⟨by decide, by decide,
    C8_taxonomy_listing_and_lookup.2.2.2.1 "CATEGORIA FANTASMA" (by decide) (by decide)⟩

/-- Claim C8 counterexample: `toString` is not a taxonomy member, yet
the lookup returns the truthy member inherited from `Object.prototype`
rather than the empty set the claim requires. -/
theorem C8_prototype_chain_counterexample :
    "toString" ∉ CATEGORIAS_DESPESAS ∧
    getCategoryExamples "toString" = ExamplesResult.inherited "toString" ∧
    getCategoryExamples "toString" ≠ ExamplesResult.list [] :=
  ⟨by decide, rfl, by decide⟩

/-- Claim C9 (confirmed): the extracted text depends only on the first
three pages — pages beyond the third never contribute to the text, nor
to the request built from it. -/
theorem C9_first_three_pages :
    (∀ pages : List (List String), extractTextFromPDF pages = extractTextFromPDF (pages.take 3)) ∧
    (∀ (p1 p2 p3 : List String) (rest : List (List String)),
      extractTextFromPDF (p1 :: p2 :: p3 :: rest) = extractTextFromPDF [p1, p2, p3]) ∧
    (∀ pages : List (List String),
      buildRequest (extractTextFromPDF pages) = buildRequest (extractTextFromPDF (pages.take 3))) := by
  have h1 : ∀ pages : List (List String),
      extractTextFromPDF pages = extractTextFromPDF (pages.take 3) := by
    intro pages
    unfold extractTextFromPDF pagesText
    rw [List.take_take]
    simp
  refine ⟨h1, ?_, ?_⟩
  · intro p1 p2 p3 rest
    rw [h1 (p1 :: p2 :: p3 :: rest)]
    simp [List.take]
  · intro pages
    rw [h1 pages]

/-- Claim C10 (confirmed): the fence-stripping pass deletes the
code-fence markers everywhere — no three-backtick run (hence no
occurrence of either marker) survives in any stripped reply — including
inside JSON string values, so a field that contained a marker comes back
with the marker deleted. -/
theorem C10_fence_removal :
    (∀ cs : List Char, hasTriple (stripFences cs) = false) ∧
    parseAndValidate "\x7b\"descricao_produtos\":\"a```b\"\x7d" =
      some (Json.obj [("descricao_produtos", Json.str "ab")]) :=
  ⟨stripFences_no_fence, rfl⟩
